import Mathlib

/-!
Verification development for the bsswstreamlit academic-analytics repository.

Each Python helper that the specification's claims talk about is embedded as
an executable Lean definition over exact rationals:

* `calculate_gpa`, `fetch_old_gpa`            — src/pages/student_academic.py
* `statusOfGradeOld`                          — src/pages/subject_difficulty.py
* `classify_difficulty_old/new`, rates        — src/pages/subject_difficulty.py
* `class_rank`                                — src/pages/comparison_with_class_average.py
* `GRADE_BINS`, `compute_distribution`        — src/pages/class_grade.py
* `get_old_curriculum_summary`, new variant   — src/pages/passed_vs_failed_summary.py
* `retention_retained/dropped/rate`           — src/pages/drop.py
* `parse_prereqs`, `is_blocked`, progression  — src/pages/curriculum_view.py
* `transcript_cumulative_gpa`                 — src/pages/transcript_viewer.py

Python's `round(x, n)` rounds to the nearest multiple of `10^-n`; we model it
with Mathlib's `round` (exact ties differ from CPython's float behaviour, and
no statement below depends on a tie).
-/

/-- Python round(x, 2), on exact rationals. -/
def round2 (q : ℚ) : ℚ := (round (q * 100) : ℤ) / 100

/-- Python round(x, 1), on exact rationals. -/
def round1 (q : ℚ) : ℚ := (round (q * 10) : ℤ) / 10

/-!
## GPA (src/pages/student_academic.py)

`calculate_gpa(grades, units)` (lines 49-56): returns 0 when either list is
empty; replaces `None` entries by 0; weighted average rounded to 2 decimals;
returns 0 when the total units are 0.
-/

/-- Function `calculate_gpa` of src/pages/student_academic.py lines 49-56.
A `none` entry models Python `None`. -/
def calculate_gpa (grades units : List (Option ℚ)) : ℚ :=
  if grades.isEmpty ∨ units.isEmpty then 0
  else
    let clean_pairs := (grades.zip units).map (fun p => (p.1.getD 0, p.2.getD 0))
    let total_points := (clean_pairs.map (fun p => p.1 * p.2)).sum
    let total_units := (clean_pairs.map (fun p => p.2)).sum
    if 0 < total_units then round2 (total_points / total_units) else 0

/-- The unit lookup of `fetch_old_curriculum` line 93:
`subjects.get(code, {}).get("Units", 3) or 3` — a missing or zero (falsy)
unit count becomes 3. -/
def subject_unit (u : Option ℚ) : ℚ :=
  match u with
  | Option.none => 3
  | Option.some q => if q = 0 then 3 else q

/-- The grade cleaning of `fetch_old_curriculum` line 94:
`val if val is not None else 0`. -/
def clean_grade (g : Option ℚ) : ℚ := g.getD 0

/-- The per-student GPA computed by `fetch_old_curriculum`
(src/pages/student_academic.py lines 93-96): null grades are replaced by 0
and fed to `calculate_gpa` together with the defaulted units. -/
def fetch_old_gpa (grades units : List (Option ℚ)) : ℚ :=
  calculate_gpa (grades.map (fun v => Option.some (clean_grade v)))
    (units.map (fun u => Option.some (subject_unit u)))

/-- The cumulative GPA of src/pages/transcript_viewer.py lines 209-211:
mean of the numeric grades rounded to 2 decimals, and the sentinel `"N/A"`
(modelled as `Option.none`) when no numeric grade exists. -/
def transcript_cumulative_gpa (grades : List (Option ℚ)) : Option ℚ :=
  let numeric_grades := grades.filterMap id
  if numeric_grades.isEmpty then Option.none
  else Option.some (round2 (numeric_grades.sum / numeric_grades.length))

/-!
## Grade values and subject difficulty (src/pages/subject_difficulty.py)
-/

/-- A raw grade cell of the Old schema: null, a number, or a status string
such as `"INC"`. -/
inductive GradeVal
  | null
  | num (q : ℚ)
  | status (s : String)
deriving DecidableEq

/-- Pass/Fail/Dropout classification outcome. -/
inductive GStatus
  | Pass
  | Fail
  | Dropout
deriving DecidableEq

/-- The classification of `get_subject_difficulty_old`
(src/pages/subject_difficulty.py lines 52-59): `None` → Dropout, a number
below 75 → Fail, everything else (including status strings) → Pass. -/
def statusOfGradeOld (g : GradeVal) : GStatus :=
  match g with
  | GradeVal.null => GStatus.Dropout
  | GradeVal.num q => if q < 75 then GStatus.Fail else GStatus.Pass
  | GradeVal.status _ => GStatus.Pass

/-- Number of enrollments a list of raw grades contributes to the Pass
count of `get_subject_difficulty_old`. -/
def pass_count (gs : List GradeVal) : ℕ :=
  (gs.map statusOfGradeOld).count GStatus.Pass

/-- Difficulty label. -/
inductive Difficulty
  | High
  | Medium
  | Low
deriving DecidableEq

/-- Inner function `classify_difficulty` of `get_subject_difficulty_old`
(src/pages/subject_difficulty.py lines 77-83). -/
def classify_difficulty_old (failRate dropoutRate : ℚ) : Difficulty :=
  if 20 ≤ failRate ∨ 5 ≤ dropoutRate then Difficulty.High
  else if 10 ≤ failRate ∨ 2 ≤ dropoutRate then Difficulty.Medium
  else Difficulty.Low

/-- Inner function `classify_difficulty` of `get_subject_difficulty_new`
(src/pages/subject_difficulty.py lines 134-140). -/
def classify_difficulty_new (failRate dropoutRate : ℚ) : Difficulty :=
  if 20 ≤ failRate ∨ 5 ≤ dropoutRate then Difficulty.High
  else if 10 ≤ failRate ∨ 2 ≤ dropoutRate then Difficulty.Medium
  else Difficulty.Low

/-- Fail rate of a subject population, as built by
`get_subject_difficulty_old` line 71 and 74:
`value_counts(normalize=True) * 100`, rounded to 1 decimal. -/
def fail_rate (rows : List GStatus) : ℚ :=
  round1 ((rows.count GStatus.Fail : ℚ) / rows.length * 100)

/-- Dropout rate of a subject population (same pipeline, line 75). -/
def dropout_rate (rows : List GStatus) : ℚ :=
  round1 ((rows.count GStatus.Dropout : ℚ) / rows.length * 100)

/-- The difficulty label assigned to one subject population by
`get_subject_difficulty_old` (line 85 applies `classify_difficulty` to the
two rounded rates). -/
def difficulty_label (rows : List GStatus) : Difficulty :=
  classify_difficulty_old (fail_rate rows) (dropout_rate rows)

/-!
## Class rank (src/pages/comparison_with_class_average.py)

Both `get_old_curriculum_comparison` (lines 80-84) and
`get_new_curriculum_comparison` (lines 142-145) compute, over the list of
numeric grades of the population,
`rank = 1 + sum(1 for gr in all_grades if gr > grade)` and then
`rank = min(max(1, rank), total_students)`.
-/

/-- The rank computation shared by the two comparison reports. -/
def class_rank (grade : ℚ) (all_grades : List ℚ) : ℕ :=
  let rank := 1 + (all_grades.filter (fun gr => grade < gr)).length
  min (max 1 rank) all_grades.length

/-!
## Grade distribution (src/pages/class_grade.py)
-/

/-- Table `GRADE_BINS` of src/pages/class_grade.py lines 19-26: label with
inclusive (low, high) bounds. -/
def GRADE_BINS : List (String × ℚ × ℚ) :=
  [("95-100 (%)", 95, 100),
   ("90-94 (%)", 90, 94),
   ("85-89 (%)", 85, 89),
   ("80-84 (%)", 80, 84),
   ("75-79 (%)", 75, 79),
   ("Below 75 (%)", 0, 74)]

/-- Function `compute_distribution` of src/pages/class_grade.py lines 29-41: per-bin
percentage of the grades list rounded to 2 decimals, plus the raw count
(`"Total S"`). Empty list: every bin 0 and count 0. -/
def compute_distribution (grades : List ℚ) : List (String × ℚ) × ℕ :=
  let total := grades.length
  if total = 0 then (GRADE_BINS.map (fun b => (b.1, (0 : ℚ))), 0)
  else
    (GRADE_BINS.map (fun b =>
      (b.1,
        round2 (((grades.filter (fun g => b.2.1 ≤ g ∧ g ≤ b.2.2)).length : ℚ)
          / total * 100))),
     total)

/-- Sum of the six reported bin percentages. -/
def dist_sum (grades : List ℚ) : ℚ :=
  ((compute_distribution grades).1.map Prod.snd).sum

/-!
## Passed vs failed summary (src/pages/passed_vs_failed_summary.py)
-/

/-- Function `get_old_curriculum_summary` (lines 42-73), as the list of
(category, count) rows it tabulates. `subjects` is the `_id` list of the
subjects collection; `studentGrades` flattens the student's
`(SubjectCodes[i], Grades[i])` pairs, `none` modelling a null grade.
Counts are integers because `not_yet = total_required - total_taken` is a
plain Python subtraction. -/
def get_old_curriculum_summary (subjects : List String)
    (studentGrades : List (String × Option ℚ)) : List (String × ℤ) :=
  let taken := studentGrades.filterMap (fun p => p.2.map (fun g => (p.1, g)))
  let passed := taken.filter (fun s => 75 ≤ s.2)
  let failed := taken.filter (fun s => s.2 < 75)
  let total_required : ℤ := subjects.length
  let not_yet : ℤ := total_required - taken.length
  [("Passed Subjects", (passed.length : ℤ)),
   ("Failed Subjects", (failed.length : ℤ)),
   ("Not Yet Taken", not_yet),
   ("Total Required Subjects", total_required)]

/-- The dict comprehension of `get_new_curriculum_summary` line 86: keys
inserted in order, a repeated subject id overwriting the earlier value. -/
def dict_insert (m : List (String × ℚ)) (k : String) (v : ℚ) :
    List (String × ℚ) :=
  if m.any (fun p => p.1 = k) then
    m.map (fun p => if p.1 = k then (k, v) else p)
  else m ++ [(k, v)]

/-- Map `taken` of `get_new_curriculum_summary` line 86: subject id → its
(last) non-null numeric grade. -/
def new_taken (studentGrades : List (String × Option ℚ)) :
    List (String × ℚ) :=
  studentGrades.foldl (fun m p =>
    match p.2 with
    | Option.none => m
    | Option.some g => dict_insert m p.1 g) []

/-- Function `get_new_curriculum_summary` (lines 79-105) as its (category, count)
rows. -/
def get_new_curriculum_summary (subjects : List String)
    (studentGrades : List (String × Option ℚ)) : List (String × ℤ) :=
  let taken := new_taken studentGrades
  let passed := taken.filter (fun s => 75 ≤ s.2)
  let failed := taken.filter (fun s => s.2 < 75)
  let total_required : ℤ := subjects.length
  let not_yet : ℤ := total_required - taken.length
  [("Passed Subjects", (passed.length : ℤ)),
   ("Failed Subjects", (failed.length : ℤ)),
   ("Not Yet Taken", not_yet),
   ("Total Required Subjects", total_required)]

/-!
## Retention (src/pages/drop.py)

`calculate_retention_old` lines 57-78 and `calculate_retention_new` lines
100-121 perform the same per-pair computation on the enrolled-student sets
of two adjacent semesters.
-/

/-- Count `retained = len(curr_students & next_students)`. -/
def retention_retained (A B : Finset ℕ) : ℕ := (A ∩ B).card

/-- Count `dropped = len(curr_students - next_students)`. -/
def retention_dropped (A B : Finset ℕ) : ℕ := (A \ B).card

/-- Rate `rate = (retained / len(curr_students)) * 100 if curr_students else 0`. -/
def retention_rate (A B : Finset ℕ) : ℚ :=
  if A.Nonempty then (retention_retained A B : ℚ) / A.card * 100 else 0

/-!
## Progression (src/pages/curriculum_view.py lines 265-291)
-/

/-- One curriculum subject row of the next-semester candidate table:
its code and its raw `Prerequisites` cell (a comma-separated string, or
`none` for a null/empty — falsy — cell). -/
structure CurrSubject where
  code : String
  prerequisite : Option String
deriving DecidableEq

/-- Prerequisite parsing of curriculum_view lines 285-286:
`str(row["Prerequisites"]).split(",") if row["Prerequisites"] else []`,
then strip each part and drop empties. -/
def parse_prereqs (pr : Option String) : List String :=
  match pr with
  | Option.none => []
  | Option.some s =>
      if s = "" then []
      else ((s.splitOn ",").map (fun p => p.trim)).filter (fun p => p ≠ "")

/-- The blocking test of curriculum_view line 288:
`any(p not in passed_codes for p in prereq)`. -/
def is_blocked (subj : CurrSubject) (passed_codes : List String) : Bool :=
  (parse_prereqs subj.prerequisite).any (fun p => !(passed_codes.contains p))

/-- Coercion `pd.to_numeric(grade, errors="coerce").fillna(0)` applied to one grade
cell (curriculum_view lines 266 and 282): a non-numeric grade becomes 0. -/
def grade_num_or0 (g : Option ℚ) : ℚ := g.getD 0

/-- List `passed_codes` of curriculum_view line 282: codes of history rows whose
coerced grade is ≥ 75. -/
def passed_codes_of (history : List (String × Option ℚ)) : List String :=
  (history.filter (fun r => 75 ≤ grade_num_or0 r.2)).map Prod.fst

/-- Membership test of curriculum_view line 266 (`failed_subjects`): the
coerced grade is < 75, so a null grade counts as failed. -/
def is_failed_row (g : Option ℚ) : Bool := grade_num_or0 g < 75

/-- The `blocked` list built by curriculum_view lines 284-291, as the
candidates that fail the prerequisite check (the source appends them in
iteration order, which is `List.filter`). -/
def blocked_list (next_subjects : List CurrSubject)
    (passed_codes : List String) : List CurrSubject :=
  next_subjects.filter (fun s => is_blocked s passed_codes)

/-!
## Helper lemmas
-/

/-- Strictly more grades exceed the lower of two grades, when the higher one
is itself in the population. -/
lemma countP_gt_succ_le {a b : ℚ} (hab : b < a) :
    ∀ l : List ℚ, a ∈ l →
      l.countP (fun g => decide (a < g)) + 1 ≤ l.countP (fun g => decide (b < g)) := by
  intro l hal
  induction l with
  | nil => cases hal
  | cons x t ih =>
      rcases List.mem_cons.1 hal with rfl | hxt
      · have hmono : t.countP (fun g => decide (a < g))
            ≤ t.countP (fun g => decide (b < g)) :=
          List.countP_mono_left (fun g _ hg => by
            simp only [decide_eq_true_eq] at hg ⊢
            exact hab.trans hg)
        simp only [List.countP_cons, decide_eq_true_eq]
        have hxa : ¬ (a < a) := lt_irrefl a
        simp [hxa, hab]
        omega
      · have := ih hxt
        simp only [List.countP_cons]
        by_cases h1 : a < x
        · have h2 : b < x := hab.trans h1
          simp [h1, h2]
          omega
        · by_cases h2 : b < x <;> simp [h1, h2] <;> omega

/-- A member of the population is not strictly greater than itself, so the
strict-greater count is below the population size. -/
lemma countP_gt_lt_length {a : ℚ} {l : List ℚ} (ha : a ∈ l) :
    l.countP (fun g => decide (a < g)) < l.length := by
  refine lt_of_le_of_ne (List.countP_le_length _) (fun h => ?_)
  have := (List.countP_eq_length.1 h) a ha
  simp at this

/-- On a population containing the graded student, the clamp in `class_rank`
is the identity: the rank is exactly `1 + count(strictly greater)`. -/
lemma class_rank_eq_of_mem {a : ℚ} {l : List ℚ} (ha : a ∈ l) :
    class_rank a l = 1 + (l.filter (fun g => a < g)).length := by
  have hlt : (l.filter (fun g => a < g)).length < l.length := by
    have hcount : (l.filter (fun g => a < g)).length
        = l.countP (fun g => decide (a < g)) := by
      simp [List.countP_eq_length_filter]
    rw [hcount]; exact countP_gt_lt_length ha
  simp only [class_rank]
  omega

/-!
## Claim theorems
-/

/-- C1. The spec requires GPA to exclude non-numeric grades from numerator
and denominator (scenario {95, 70, null} with 3 units each → 82.5);
`fetch_old_curriculum`/`calculate_gpa` instead replace the null grade by 0
and produce 55, so the code contradicts the specified scenario. -/
theorem C1_gpa_scenario_code_result :
    fetch_old_gpa [Option.some 95, Option.some 70, Option.none]
        [Option.some 3, Option.some 3, Option.some 3] = 55
    ∧ fetch_old_gpa [Option.some 95, Option.some 70, Option.none]
        [Option.some 3, Option.some 3, Option.some 3] ≠ 165 / 2 := by
  have h : fetch_old_gpa [Option.some 95, Option.some 70, Option.none]
      [Option.some 3, Option.some 3, Option.some 3] = 55 := by
    norm_num [fetch_old_gpa, calculate_gpa, clean_grade, subject_unit, round2,
      round_eq]
  exact ⟨h, by rw [h]; norm_num⟩

/-- C2. The code does not preserve the four-way grade distinction: the
old-curriculum difficulty metric classifies a null (in-progress) grade as
`Dropout`, the GPA pipeline replaces it by the numeric value 0, the
progression code counts it as a failed subject (`fillna(0) < 75`), and the
GPA of a scope whose only grade is null is computed as 0. -/
theorem C2_code_collapses_grade_distinction :
    statusOfGradeOld GradeVal.null = GStatus.Dropout
    ∧ clean_grade Option.none = 0
    ∧ is_failed_row Option.none = true
    ∧ fetch_old_gpa [Option.none] [Option.some 3] = 0 := by
  refine ⟨rfl, rfl, rfl, ?_⟩
  norm_num [fetch_old_gpa, calculate_gpa, clean_grade, subject_unit, round2,
    round_eq]

/-- C9. When no numeric grade exists in scope, `calculate_gpa` returns the
plain number 0 — indistinguishable from a true 0.0 — instead of the
"undefined" sentinel the spec requires; only the transcript viewer uses a
sentinel (modelled as `Option.none`). -/
theorem C9_gpa_returns_zero_not_sentinel :
    calculate_gpa [] [] = 0
    ∧ calculate_gpa [Option.none] [Option.some 3] = 0
    ∧ transcript_cumulative_gpa [Option.none, Option.none] = Option.none := by
  refine ⟨by decide, ?_, by decide⟩
  norm_num [calculate_gpa, round2, round_eq]

/-- C10. In `get_subject_difficulty_old`, every non-null non-numeric grade
(such as the status string `"INC"`) is classified `Pass`; only a null grade
yields `Dropout` and only a numeric grade below 75 yields `Fail`, and a
status token does contribute to the pass count. -/
theorem C10_old_difficulty_statuses (g : GradeVal) :
    (∀ s : String, statusOfGradeOld (GradeVal.status s) = GStatus.Pass)
    ∧ (statusOfGradeOld g = GStatus.Dropout ↔ g = GradeVal.null)
    ∧ (statusOfGradeOld g = GStatus.Fail ↔ ∃ q, g = GradeVal.num q ∧ q < 75)
    ∧ pass_count [GradeVal.status "INC"] = 1 := by
  refine ⟨fun s => rfl, ?_, ?_, by decide⟩
  · cases g with
    | null => simp [statusOfGradeOld]
    | num q =>
        simp only [statusOfGradeOld]
        split_ifs <;> simp
    | status s => simp [statusOfGradeOld]
  · cases g with
    | null => simp [statusOfGradeOld]
    | num q =>
        simp only [statusOfGradeOld]
        split_ifs with h <;> simp [h]
    | status s => simp [statusOfGradeOld]

/-- C8. The difficulty label is the same fixed function of the fail and
dropout rates in both curriculum variants, with the constant thresholds
High ⟺ failRate ≥ 20 ∨ dropoutRate ≥ 5, Medium ⟺ otherwise and
failRate ≥ 10 ∨ dropoutRate ≥ 2, else Low. -/
theorem C8_difficulty_label_thresholds (f d : ℚ) :
    classify_difficulty_old f d = classify_difficulty_new f d
    ∧ (∀ rows : List GStatus,
        difficulty_label rows
          = classify_difficulty_old (fail_rate rows) (dropout_rate rows))
    ∧ (classify_difficulty_old f d = Difficulty.High ↔ 20 ≤ f ∨ 5 ≤ d)
    ∧ (classify_difficulty_old f d = Difficulty.Medium ↔
        (f < 20 ∧ d < 5) ∧ (10 ≤ f ∨ 2 ≤ d))
    ∧ (classify_difficulty_old f d = Difficulty.Low ↔ f < 10 ∧ d < 2) := by
  refine ⟨rfl, fun rows => rfl, ?_, ?_, ?_⟩
  · unfold classify_difficulty_old
    split_ifs with h1 h2 <;> simp [h1]
  · unfold classify_difficulty_old
    split_ifs with h1 h2
    · push_neg at *
      simp only [reduceCtorEq, false_iff]
      rintro ⟨⟨hf, hd⟩, -⟩
      rcases h1 with h | h
      · exact absurd h (not_le.2 hf)
      · exact absurd h (not_le.2 hd)
    · push_neg at h1
      simp [h1.1, h1.2, h2]
    · push_neg at h1 h2
      simp only [reduceCtorEq, false_iff]
      rintro ⟨-, h | h⟩
      · exact absurd h (not_le.2 h2.1)
      · exact absurd h (not_le.2 h2.2)
  · unfold classify_difficulty_old
    split_ifs with h1 h2
    · simp only [reduceCtorEq, false_iff]
      rintro ⟨hf, hd⟩
      rcases h1 with h | h
      · exact absurd h (not_le.2 (hf.trans_le (by norm_num)))
      · exact absurd h (not_le.2 (hd.trans_le (by norm_num)))
    · simp only [reduceCtorEq, false_iff]
      rintro ⟨hf, hd⟩
      rcases h2 with h | h
      · exact absurd h (not_le.2 hf)
      · exact absurd h (not_le.2 hd)
    · push_neg at h2
      simp [h2.1, h2.2]

/-- C3. Class rank is competition ranking: on a population containing the
student's grade, rank = clamp(1 + count(strictly greater), 1, N); a higher
grade gets a strictly smaller rank, equal grades equal ranks, ranks lie in
[1, N], and grades (88, 88, 70) rank 1, 1, 3. -/
theorem C3_class_rank_competition (pop : List ℚ) (a b : ℚ)
    (ha : a ∈ pop) (hb : b ∈ pop) :
    class_rank a pop
        = min (max 1 (1 + (pop.filter (fun g => a < g)).length)) pop.length
    ∧ (b < a → class_rank a pop < class_rank b pop)
    ∧ (a = b → class_rank a pop = class_rank b pop)
    ∧ 1 ≤ class_rank a pop
    ∧ class_rank a pop ≤ pop.length
    ∧ class_rank 88 [88, 88, 70] = 1
    ∧ class_rank 70 [88, 88, 70] = 3 := by
  have hlen : 1 ≤ pop.length := List.length_pos.2 (List.ne_nil_of_mem ha)
  refine ⟨rfl, ?_, ?_, ?_, ?_, by decide, by decide⟩
  · intro hba
    rw [class_rank_eq_of_mem ha, class_rank_eq_of_mem hb]
    have h := countP_gt_succ_le hba pop ha
    have hca : (pop.filter (fun g => a < g)).length
        = pop.countP (fun g => decide (a < g)) := by
      simp [List.countP_eq_length_filter]
    have hcb : (pop.filter (fun g => b < g)).length
        = pop.countP (fun g => decide (b < g)) := by
      simp [List.countP_eq_length_filter]
    omega
  · rintro rfl; rfl
  · simp only [class_rank]
    omega
  · simp only [class_rank]
    omega

/-- Witness for C3 at the (88, 88, 70) population. -/
theorem C3_class_rank_competition_witness :
    class_rank 88 [(88 : ℚ), 88, 70] < class_rank 70 [(88 : ℚ), 88, 70]
    ∧ 1 ≤ class_rank 88 [(88 : ℚ), 88, 70]
    ∧ class_rank 88 [(88 : ℚ), 88, 70] ≤ ([(88 : ℚ), 88, 70] : List ℚ).length := by
  have h := C3_class_rank_competition [(88 : ℚ), 88, 70] 88 70
    (by norm_num) (by norm_num)
  exact ⟨h.2.1 (by norm_num), h.2.2.2.1, h.2.2.2.2.1⟩

/-- C6. Retention: retained + dropped = |A|, the rate is 0 on an empty
first term, and the spec scenario A = {1,2,3}, B = {2,3,4} yields
retained 2, dropped 1, rate 200/3 (displayed as 66.7%). -/
theorem C6_retention_reconciles (A B : Finset ℕ) :
    retention_retained A B + retention_dropped A B = A.card
    ∧ (A = ∅ → retention_rate A B = 0)
    ∧ retention_retained {1, 2, 3} {2, 3, 4} = 2
    ∧ retention_dropped {1, 2, 3} {2, 3, 4} = 1
    ∧ retention_rate {1, 2, 3} {2, 3, 4} = 200 / 3
    ∧ round1 (retention_rate {1, 2, 3} {2, 3, 4}) = 667 / 10 := by
  refine ⟨?_, ?_, by decide, by decide, ?_, ?_⟩
  · rw [retention_retained, retention_dropped, add_comm]
    exact Finset.card_sdiff_add_card_inter A B
  · rintro rfl
    simp [retention_rate]
  · norm_num [retention_rate, retention_retained]
  · have h : retention_rate {1, 2, 3} {2, 3, 4} = 200 / 3 := by
      norm_num [retention_rate, retention_retained]
    rw [h]
    norm_num [round1, round_eq]

/-- Witness for C6 with an empty first-term set. -/
theorem C6_retention_reconciles_witness :
    retention_retained ∅ {2, 3, 4} + retention_dropped ∅ {2, 3, 4}
        = Finset.card (∅ : Finset ℕ)
    ∧ retention_rate ∅ {2, 3, 4} = 0 :=
  ⟨(C6_retention_reconciles ∅ {2, 3, 4}).1,
   (C6_retention_reconciles ∅ {2, 3, 4}).2.1 rfl⟩

/-- C7. Progression never blocks a candidate with an empty prerequisite
list, nor one whose every prerequisite code is in the student's
passing-grade set. -/
theorem C7_progression_unblocked (next_subjects : List CurrSubject)
    (history : List (String × Option ℚ)) (c : CurrSubject)
    (_hc : c ∈ next_subjects) :
    (parse_prereqs c.prerequisite = [] →
        c ∉ blocked_list next_subjects (passed_codes_of history))
    ∧ ((∀ p ∈ parse_prereqs c.prerequisite, p ∈ passed_codes_of history) →
        c ∉ blocked_list next_subjects (passed_codes_of history)) := by
  constructor
  · intro hempty hmem
    have hblk : is_blocked c (passed_codes_of history) = true :=
      (List.mem_filter.1 hmem).2
    rw [is_blocked, hempty] at hblk
    simp at hblk
  · intro hall hmem
    have hblk : is_blocked c (passed_codes_of history) = true :=
      (List.mem_filter.1 hmem).2
    rw [is_blocked, List.any_eq_true] at hblk
    obtain ⟨p, hp, hnp⟩ := hblk
    have : (passed_codes_of history).contains p = true :=
      List.elem_eq_true_of_mem (hall p hp)
    simp [this] at hnp
    exact hnp (hall p hp)

/-- Witness for C7: a candidate with no prerequisite entry is not blocked. -/
theorem C7_progression_unblocked_witness :
    CurrSubject.mk "X" Option.none
      ∉ blocked_list [CurrSubject.mk "X" Option.none] (passed_codes_of []) :=
  (C7_progression_unblocked [CurrSubject.mk "X" Option.none] []
    (CurrSubject.mk "X" Option.none) (List.mem_singleton.2 rfl)).1 rfl

/-- The `passed`/`failed` filters of the summaries partition the taken
subjects: each numeric grade is ≥ 75 or < 75. -/
lemma length_passed_add_failed (l : List (String × ℚ)) :
    (l.filter (fun s => 75 ≤ s.2)).length
      + (l.filter (fun s => s.2 < 75)).length = l.length := by
  induction l with
  | nil => rfl
  | cons x t ih =>
      by_cases h : (75 : ℚ) ≤ x.2
      · have h2 : ¬ (x.2 < 75) := not_lt.2 h
        simp [List.filter_cons, h, h2]
        omega
      · have h2 : x.2 < 75 := not_le.1 h
        simp [List.filter_cons, h, h2]
        omega

/-- C5 counterexample: the summary reports exactly the categories
Passed/Failed/Not Yet Taken/Total Required — there is no "Incomplete" row,
and the student's in-progress (null-grade) enrollment in subject "A" is
absorbed into "Not Yet Taken" (which reports 2, covering both "A" and the
never-attempted "B"). -/
theorem C5_summary_counterexample :
    ((get_old_curriculum_summary ["A", "B"] [("A", Option.none)]).map
        Prod.fst).contains "Incomplete" = false
    ∧ get_old_curriculum_summary ["A", "B"] [("A", Option.none)]
        = [("Passed Subjects", 0), ("Failed Subjects", 0),
           ("Not Yet Taken", 2), ("Total Required Subjects", 2)] := by
  constructor
  · rfl
  · rfl

/-- C5 amended: both summaries reconcile as
Pass + Fail + NotYetTaken = TotalRequired; no Incomplete category exists,
non-numeric enrollments being absorbed into NotYetTaken. -/
theorem C5_summary_reconciles (subjects : List String)
    (studentGrades : List (String × Option ℚ)) :
    (∃ p f ny tr : ℤ,
      get_old_curriculum_summary subjects studentGrades
          = [("Passed Subjects", p), ("Failed Subjects", f),
             ("Not Yet Taken", ny), ("Total Required Subjects", tr)]
        ∧ p + f + ny = tr)
    ∧ (∃ p f ny tr : ℤ,
      get_new_curriculum_summary subjects studentGrades
          = [("Passed Subjects", p), ("Failed Subjects", f),
             ("Not Yet Taken", ny), ("Total Required Subjects", tr)]
        ∧ p + f + ny = tr) := by
  constructor
  · simp only [get_old_curriculum_summary]
    refine ⟨_, _, _, _, rfl, ?_⟩
    have h := length_passed_add_failed
      (studentGrades.filterMap (fun p => p.2.map (fun g => (p.1, g))))
    omega
  · simp only [get_new_curriculum_summary]
    refine ⟨_, _, _, _, rfl, ?_⟩
    have h := length_passed_add_failed (new_taken studentGrades)
    omega

/-- Rounding to 2 decimals moves a rational by at most 1/200. -/
lemma round2_abs_le (q : ℚ) : |round2 q - q| ≤ 1 / 200 := by
  have h := abs_sub_round (q * 100)
  rw [abs_sub_comm] at h
  have heq : round2 q - q = (((round (q * 100) : ℤ) : ℚ) - q * 100) / 100 := by
    rw [round2]; ring
  rw [heq, abs_div, show |(100 : ℚ)| = 100 from abs_of_pos (by norm_num)]
  linarith

/-- Over integer grades in [0, 100], the six bin counts partition the
list. -/
lemma six_bin_partition : ∀ l : List ℚ,
    (∀ g ∈ l, ∃ n : ℤ, g = (n : ℚ) ∧ 0 ≤ n ∧ n ≤ 100) →
      (l.filter (fun g => 95 ≤ g ∧ g ≤ 100)).length
      + (l.filter (fun g => 90 ≤ g ∧ g ≤ 94)).length
      + (l.filter (fun g => 85 ≤ g ∧ g ≤ 89)).length
      + (l.filter (fun g => 80 ≤ g ∧ g ≤ 84)).length
      + (l.filter (fun g => 75 ≤ g ∧ g ≤ 79)).length
      + (l.filter (fun g => 0 ≤ g ∧ g ≤ 74)).length
      = l.length := by
  intro l
  induction l with
  | nil => intro _; rfl
  | cons x t ih =>
      intro hl
      obtain ⟨n, rfl, hn0, hn1⟩ := hl x (List.mem_cons_self x t)
      have ht := ih (fun g hg => hl g (List.mem_cons_of_mem _ hg))
      simp only [List.filter_cons, decide_eq_true_eq, apply_ite List.length,
        List.length_cons,
        show ((95 : ℚ) ≤ (n : ℚ) ∧ (n : ℚ) ≤ 100) ↔ (95 ≤ n ∧ n ≤ 100) from
          by exact_mod_cast Iff.rfl,
        show ((90 : ℚ) ≤ (n : ℚ) ∧ (n : ℚ) ≤ 94) ↔ (90 ≤ n ∧ n ≤ 94) from
          by exact_mod_cast Iff.rfl,
        show ((85 : ℚ) ≤ (n : ℚ) ∧ (n : ℚ) ≤ 89) ↔ (85 ≤ n ∧ n ≤ 89) from
          by exact_mod_cast Iff.rfl,
        show ((80 : ℚ) ≤ (n : ℚ) ∧ (n : ℚ) ≤ 84) ↔ (80 ≤ n ∧ n ≤ 84) from
          by exact_mod_cast Iff.rfl,
        show ((75 : ℚ) ≤ (n : ℚ) ∧ (n : ℚ) ≤ 79) ↔ (75 ≤ n ∧ n ≤ 79) from
          by exact_mod_cast Iff.rfl,
        show ((0 : ℚ) ≤ (n : ℚ) ∧ (n : ℚ) ≤ 74) ↔ (0 ≤ n ∧ n ≤ 74) from
          by exact_mod_cast Iff.rfl]
      split_ifs <;> omega

/-- C4 counterexample: with the six integer grades 97, 92, 87, 82, 77, 60
(one per bin) every bin reports 16.67 and the percentages sum to 100.02,
outside the claimed 100.00 ± 0.01; and the fractional grade 94.5, although
in [0, 100], falls in the gap between the 90-94 and 95-100 bins, so the
percentages of the non-empty list [94.5] sum to 0. -/
theorem C4_distribution_sum_counterexample :
    dist_sum [97, 92, 87, 82, 77, 60] = 10002 / 100
    ∧ ¬ |dist_sum [97, 92, 87, 82, 77, 60] - 100| ≤ 1 / 100
    ∧ dist_sum [189 / 2] = 0
    ∧ (0 ≤ (189 : ℚ) / 2 ∧ (189 : ℚ) / 2 ≤ 100) := by
  have h1 : dist_sum [97, 92, 87, 82, 77, 60] = 10002 / 100 := by
    norm_num [dist_sum, compute_distribution, GRADE_BINS, round2, round_eq,
      List.filter]
  refine ⟨h1, ?_, ?_, by norm_num⟩
  · rw [h1]; norm_num [abs_le]
  · norm_num [dist_sum, compute_distribution, GRADE_BINS, round2, round_eq,
      List.filter]

/-- C4 amended: for integer grades in [0, 100] the six rounded bin
percentages of a non-empty list sum to 100.00 ± 0.03, and the empty list
reports 0 in every bin with count 0. -/
theorem C4_distribution_sum_amended (grades : List ℚ)
    (hint : ∀ g ∈ grades, ∃ n : ℤ, g = (n : ℚ) ∧ 0 ≤ n ∧ n ≤ 100)
    (hne : grades ≠ []) :
    |dist_sum grades - 100| ≤ 3 / 100
    ∧ compute_distribution [] = (GRADE_BINS.map (fun b => (b.1, (0 : ℚ))), 0) := by
  refine ⟨?_, rfl⟩
  have hlen : grades.length ≠ 0 := by
    simpa [List.length_eq_zero] using hne
  have hT : ((grades.length : ℚ)) ≠ 0 := by exact_mod_cast hlen
  have hpart := six_bin_partition grades hint
  simp only [dist_sum, compute_distribution, GRADE_BINS, if_neg hlen,
    List.map_cons, List.map_nil, List.sum_cons, List.sum_nil, add_zero]
  set c1 := (grades.filter (fun g => 95 ≤ g ∧ g ≤ 100)).length with hc1
  set c2 := (grades.filter (fun g => 90 ≤ g ∧ g ≤ 94)).length with hc2
  set c3 := (grades.filter (fun g => 85 ≤ g ∧ g ≤ 89)).length with hc3
  set c4 := (grades.filter (fun g => 80 ≤ g ∧ g ≤ 84)).length with hc4
  set c5 := (grades.filter (fun g => 75 ≤ g ∧ g ≤ 79)).length with hc5
  set c6 := (grades.filter (fun g => 0 ≤ g ∧ g ≤ 74)).length with hc6
  have e1 := round2_abs_le ((c1 : ℚ) / (grades.length : ℚ) * 100)
  have e2 := round2_abs_le ((c2 : ℚ) / (grades.length : ℚ) * 100)
  have e3 := round2_abs_le ((c3 : ℚ) / (grades.length : ℚ) * 100)
  have e4 := round2_abs_le ((c4 : ℚ) / (grades.length : ℚ) * 100)
  have e5 := round2_abs_le ((c5 : ℚ) / (grades.length : ℚ) * 100)
  have e6 := round2_abs_le ((c6 : ℚ) / (grades.length : ℚ) * 100)
  have hcast : (c1 : ℚ) + c2 + c3 + c4 + c5 + c6 = (grades.length : ℚ) := by
    exact_mod_cast hpart
  have hsum : (c1 : ℚ) / (grades.length : ℚ) * 100
      + ((c2 : ℚ) / (grades.length : ℚ) * 100
      + ((c3 : ℚ) / (grades.length : ℚ) * 100
      + ((c4 : ℚ) / (grades.length : ℚ) * 100
      + ((c5 : ℚ) / (grades.length : ℚ) * 100
      + (c6 : ℚ) / (grades.length : ℚ) * 100)))) = 100 := by
    field_simp
    linarith [hcast]
  have key : round2 ((c1 : ℚ) / (grades.length : ℚ) * 100)
      + (round2 ((c2 : ℚ) / (grades.length : ℚ) * 100)
      + (round2 ((c3 : ℚ) / (grades.length : ℚ) * 100)
      + (round2 ((c4 : ℚ) / (grades.length : ℚ) * 100)
      + (round2 ((c5 : ℚ) / (grades.length : ℚ) * 100)
      + round2 ((c6 : ℚ) / (grades.length : ℚ) * 100))))) - 100
      = (round2 ((c1 : ℚ) / (grades.length : ℚ) * 100)
          - (c1 : ℚ) / (grades.length : ℚ) * 100)
      + ((round2 ((c2 : ℚ) / (grades.length : ℚ) * 100)
          - (c2 : ℚ) / (grades.length : ℚ) * 100)
      + ((round2 ((c3 : ℚ) / (grades.length : ℚ) * 100)
          - (c3 : ℚ) / (grades.length : ℚ) * 100)
      + ((round2 ((c4 : ℚ) / (grades.length : ℚ) * 100)
          - (c4 : ℚ) / (grades.length : ℚ) * 100)
      + ((round2 ((c5 : ℚ) / (grades.length : ℚ) * 100)
          - (c5 : ℚ) / (grades.length : ℚ) * 100)
      + (round2 ((c6 : ℚ) / (grades.length : ℚ) * 100)
          - (c6 : ℚ) / (grades.length : ℚ) * 100))))) := by
    linear_combination hsum
  rw [key]
  have habs := abs_add
    (round2 ((c1 : ℚ) / (grades.length : ℚ) * 100)
      - (c1 : ℚ) / (grades.length : ℚ) * 100)
    ((round2 ((c2 : ℚ) / (grades.length : ℚ) * 100)
          - (c2 : ℚ) / (grades.length : ℚ) * 100)
      + ((round2 ((c3 : ℚ) / (grades.length : ℚ) * 100)
          - (c3 : ℚ) / (grades.length : ℚ) * 100)
      + ((round2 ((c4 : ℚ) / (grades.length : ℚ) * 100)
          - (c4 : ℚ) / (grades.length : ℚ) * 100)
      + ((round2 ((c5 : ℚ) / (grades.length : ℚ) * 100)
          - (c5 : ℚ) / (grades.length : ℚ) * 100)
      + (round2 ((c6 : ℚ) / (grades.length : ℚ) * 100)
          - (c6 : ℚ) / (grades.length : ℚ) * 100)))))
  have habs2 := abs_add
    (round2 ((c2 : ℚ) / (grades.length : ℚ) * 100)
      - (c2 : ℚ) / (grades.length : ℚ) * 100)
    ((round2 ((c3 : ℚ) / (grades.length : ℚ) * 100)
          - (c3 : ℚ) / (grades.length : ℚ) * 100)
      + ((round2 ((c4 : ℚ) / (grades.length : ℚ) * 100)
          - (c4 : ℚ) / (grades.length : ℚ) * 100)
      + ((round2 ((c5 : ℚ) / (grades.length : ℚ) * 100)
          - (c5 : ℚ) / (grades.length : ℚ) * 100)
      + (round2 ((c6 : ℚ) / (grades.length : ℚ) * 100)
          - (c6 : ℚ) / (grades.length : ℚ) * 100))))
  have habs3 := abs_add
    (round2 ((c3 : ℚ) / (grades.length : ℚ) * 100)
      - (c3 : ℚ) / (grades.length : ℚ) * 100)
    ((round2 ((c4 : ℚ) / (grades.length : ℚ) * 100)
          - (c4 : ℚ) / (grades.length : ℚ) * 100)
      + ((round2 ((c5 : ℚ) / (grades.length : ℚ) * 100)
          - (c5 : ℚ) / (grades.length : ℚ) * 100)
      + (round2 ((c6 : ℚ) / (grades.length : ℚ) * 100)
          - (c6 : ℚ) / (grades.length : ℚ) * 100)))
  have habs4 := abs_add
    (round2 ((c4 : ℚ) / (grades.length : ℚ) * 100)
      - (c4 : ℚ) / (grades.length : ℚ) * 100)
    ((round2 ((c5 : ℚ) / (grades.length : ℚ) * 100)
          - (c5 : ℚ) / (grades.length : ℚ) * 100)
      + (round2 ((c6 : ℚ) / (grades.length : ℚ) * 100)
          - (c6 : ℚ) / (grades.length : ℚ) * 100))
  have habs5 := abs_add
    (round2 ((c5 : ℚ) / (grades.length : ℚ) * 100)
      - (c5 : ℚ) / (grades.length : ℚ) * 100)
    (round2 ((c6 : ℚ) / (grades.length : ℚ) * 100)
      - (c6 : ℚ) / (grades.length : ℚ) * 100)
  linarith [e1, e2, e3, e4, e5, e6, habs, habs2, habs3, habs4, habs5]

/-- Witness for C4 amended at the integer grade list [95, 80]. -/
theorem C4_distribution_sum_amended_witness :
    |dist_sum [(95 : ℚ), 80] - 100| ≤ 3 / 100 :=
  (C4_distribution_sum_amended [(95 : ℚ), 80]
    (by
      intro g hg
      rcases List.mem_cons.1 hg with rfl | hg2
      · exact ⟨95, by norm_num⟩
      · rcases List.mem_cons.1 hg2 with rfl | hg3
        · exact ⟨80, by norm_num⟩
        · cases hg3)
    (by simp)).1

